import Mathlib

/-!
# Verification of the SimpleCar-Planning MPC configuration program

A shallow embedding of `src/MPC_simulate.cpp` and `include/ValidityChecker.h`.
The program is configuration glue around an external optimal-control toolkit:
it loads a reference path from a text file, registers a car-like kinematic
model, fills a least-squares cost and box constraints into an optimal control
problem, configures a real-time iteration algorithm, and runs the external
simulation loop.  We embed the parts the repository itself supplies:

* symbolic differential-equation registration (`f`),
* the reference-file reading loop (`readLoop`, `ref_states`, `num_waypoints`),
* the derived quantities `totalSteps`, `dt`, `reference_grid`, `x0`,
* the cost data `Qmat`, `hFun`, `rvec` and the box constraints,
* the algorithm settings passed to the external solver,
* the setup phase of `main` with its two fail-fast error exits.

Program doubles are modelled as exact rationals; the symbolic constant `M_PI`
is modelled as a formal multiple of pi (`PiLin`), since the program only ever
stores and compares these values while building the configuration.
-/

namespace SimpleCar

/-- The five ACADO symbols declared in `main`: the differential states
`x`, `y`, `theta` and the controls `u0` (velocity) and `u1` (steering). -/
inductive Var where
  | x
  | y
  | theta
  | u0
  | u1
deriving DecidableEq, Repr

/-- Symbolic expressions over the declared variables, as built by the
overloaded ACADO operators used in `MPC_simulate.cpp`. -/
inductive Expr where
  | var : Var → Expr
  | lit : ℚ → Expr
  | mul : Expr → Expr → Expr
  | div : Expr → Expr → Expr
  | cos : Expr → Expr
  | sin : Expr → Expr
  | tan : Expr → Expr
deriving DecidableEq, Repr

/-- Evaluation of a symbolic expression, parametric in the interpretations of
the three trigonometric primitives (the toolkit evaluates them over machine
doubles; any interpretation satisfies the structural facts we prove). -/
def Expr.evalWith (co si ta : ℚ → ℚ) (env : Var → ℚ) : Expr → ℚ
  | .var v => env v
  | .lit q => q
  | .mul a b => Expr.evalWith co si ta env a * Expr.evalWith co si ta env b
  | .div a b => Expr.evalWith co si ta env a / Expr.evalWith co si ta env b
  | .cos a => co (Expr.evalWith co si ta env a)
  | .sin a => si (Expr.evalWith co si ta env a)
  | .tan a => ta (Expr.evalWith co si ta env a)

/-- `const double wheelbase = 10.0;` (line 19). -/
def wheelbase : ℚ := 10

/-- The differential equation registered with the toolkit (lines 62-65):
each entry pairs a differential state with the right-hand side of its
`dot(...) == ...` equation, in registration order. -/
def f : List (Var × Expr) :=
  [(.x, .mul (.var .u0) (.cos (.var .theta))),
   (.y, .mul (.var .u0) (.sin (.var .theta))),
   (.theta, .div (.mul (.var .u0) (.tan (.var .u1))) (.lit wheelbase))]

/-- The simple car-like (bicycle) kinematic model exactly as the spec words
it: `dot(x) = u0*cos(theta)`, `dot(y) = u0*sin(theta)`,
`dot(theta) = u0*tan(u1)/wheelbase` with `wheelbase = 10.0`. -/
def specDynamics : List (Var × Expr) :=
  [(.x, .mul (.var .u0) (.cos (.var .theta))),
   (.y, .mul (.var .u0) (.sin (.var .theta))),
   (.theta, .div (.mul (.var .u0) (.tan (.var .u1))) (.lit 10))]

/-- One line of the reference file (lines 31-36): a `std::vector<double> s(3, 0)`
pre-filled with zeros receives exactly three extraction attempts from the
line; attempt `i` succeeds exactly when the line holds more than `i` numeric
tokens (a failed extraction leaves/stores zero, and once the stream fails all
later attempts fail too, so slot `i` gets token `i` or `0`). -/
def parseLine (toks : List ℚ) : List ℚ :=
  [toks.getD 0 0, toks.getD 1 0, toks.getD 2 0]

/-- The `while(std::getline(...))` loop (lines 29-39): starting from the
accumulated `ref_states` vector and `num_waypoints` counter, each line is
parsed, pushed back, and the counter incremented. -/
def readLoop : List (List ℚ) → List (List ℚ) × ℤ → List (List ℚ) × ℤ
  | [], acc => acc
  | line :: rest, (rs, n) => readLoop rest (rs ++ [parseLine line], n + 1)

/-- `ref_states` after the reading loop, from an initially empty vector. -/
def ref_states (lines : List (List ℚ)) : List (List ℚ) :=
  (readLoop lines ([], 0)).1

/-- `num_waypoints` after the reading loop, from an initial count of zero. -/
def num_waypoints (lines : List (List ℚ)) : ℤ :=
  (readLoop lines ([], 0)).2

/-- `const double tTotal = 70.0;` (line 44). -/
def tTotal : ℚ := 70

/-- `const int totalSteps = num_waypoints - 1;` (line 45). -/
def totalSteps (lines : List (List ℚ)) : ℤ :=
  num_waypoints lines - 1

/-- `const double dt = tTotal / totalSteps;` (line 46).  The division is
modelled by rational division, whose value at denominator zero is irrelevant
to our claims: we reason about the denominator itself. -/
def dt (lines : List (List ℚ)) : ℚ :=
  tTotal / ((totalSteps lines : ℚ))

/-- The fill loop for `VariablesGrid reference_grid(3, tStart, tTotal,
totalSteps)` (lines 96-102): entry `(i, s)` receives `ref_states[i][s]` for
`i` ranging over `[0, totalSteps)` and `s` over `[0, 3)`. -/
def reference_grid (lines : List (List ℚ)) : List (List ℚ) :=
  (List.range (totalSteps lines).toNat).map
    (fun i => (List.range 3).map (fun s => ((ref_states lines).getD i []).getD s 0))

/-- The initial state `x0` (lines 171-174): the three components of
`ref_states[0]`. -/
def x0 (lines : List (List ℚ)) : List ℚ :=
  [((ref_states lines).getD 0 []).getD 0 0,
   ((ref_states lines).getD 0 []).getD 1 0,
   ((ref_states lines).getD 0 []).getD 2 0]

/-- A value of the form `q + p * pi`, enough to represent every bound the
program writes into the OCP: plain double literals and the expressions
`M_PI`, `-M_PI`, `M_PI / 3`, `-M_PI / 3` built from the math-library
constant. -/
structure PiLin where
  q : ℚ
  p : ℚ
deriving DecidableEq, Repr

/-- A plain rational bound. -/
def rq (a : ℚ) : PiLin := ⟨a, 0⟩

/-- The constant `M_PI`. -/
def M_PI : PiLin := ⟨0, 1⟩

/-- Negation of a bound value. -/
def PiLin.neg (a : PiLin) : PiLin := ⟨-a.q, -a.p⟩

/-- Division of a bound value by a rational. -/
def PiLin.divQ (a : PiLin) (c : ℚ) : PiLin := ⟨a.q / c, a.p / c⟩

/-- One `ocp.subjectTo(lo <= v <= hi)` box constraint. -/
structure BoxConstraint where
  lo : PiLin
  v : Var
  hi : PiLin
deriving DecidableEq, Repr

/-- The five box constraints added to the OCP (lines 135-139), in order. -/
def ocpConstraints : List BoxConstraint :=
  [⟨rq 0, .x, rq 200⟩,
   ⟨rq 0, .y, rq 200⟩,
   ⟨M_PI.neg, .theta, M_PI⟩,
   ⟨rq (-10), .u0, rq 10⟩,
   ⟨(M_PI.neg).divQ 3, .u1, M_PI.divQ 3⟩]

/-- The box constraints exactly as the spec words them: `0 <= x <= 200`,
`0 <= y <= 200`, `-pi <= theta <= pi`, `-10 <= u0 <= 10`,
`-pi/3 <= u1 <= pi/3`. -/
def specConstraints : List BoxConstraint :=
  [⟨⟨0, 0⟩, .x, ⟨200, 0⟩⟩,
   ⟨⟨0, 0⟩, .y, ⟨200, 0⟩⟩,
   ⟨⟨0, -1⟩, .theta, ⟨0, 1⟩⟩,
   ⟨⟨-10, 0⟩, .u0, ⟨10, 0⟩⟩,
   ⟨⟨0, -(1/3)⟩, .u1, ⟨0, 1/3⟩⟩]

/-- A single diagonal assignment `M(i, i) = v` on a 5x5 matrix (ACADO
matrices are zero-initialised on construction). -/
def matUpd (M : Fin 5 → Fin 5 → ℚ) (i j : Fin 5) (v : ℚ) : Fin 5 → Fin 5 → ℚ :=
  fun a b => if a = i ∧ b = j then v else M a b

/-- The weighting matrix `Q` (lines 83-88): `DMatrix Q(5, 5)` starts at zero
and receives the five diagonal assignments. -/
def Qmat : Fin 5 → Fin 5 → ℚ :=
  matUpd (matUpd (matUpd (matUpd (matUpd (fun _ _ => 0) 0 0 1) 1 1 1)
    2 2 (7/10)) 3 3 (1/1000000)) 4 4 (1/1000000)

/-- The weight matrix exactly as the spec words it:
`diag(1.0, 1.0, 0.7, 1e-6, 1e-6)`. -/
def specQ : Fin 5 → Fin 5 → ℚ :=
  fun i j => if i = j then [1, 1, 7/10, 1/1000000, 1/1000000].getD i 0 else 0

/-- The LSQ measurement function `h` (lines 75-80): the five symbols pushed
in order. -/
def hFun : List Expr :=
  [.var .x, .var .y, .var .theta, .var .u0, .var .u1]

/-- The reference vector `r` (line 91): `DVector r(5)` is zero-initialised
and never written. -/
def rvec : Fin 5 → ℚ := fun _ => 0

/-- The optimal control problem contents supplied by this repository: the
dynamics constraint `ocp.subjectTo(f)`, the LSQ objective
`ocp.minimizeLSQ(Q, h, r)`, and the box constraints. -/
structure OCPData where
  dynamics : List (Var × Expr)
  weightQ : Fin 5 → Fin 5 → ℚ
  lsqH : List Expr
  refR : Fin 5 → ℚ
  constraints : List BoxConstraint

/-- The OCP as configured in `main` (lines 105-139). -/
def ocp : OCPData :=
  ⟨f, Qmat, hFun, rvec, ocpConstraints⟩

/-- The option keys set on the real-time algorithm (lines 151-162). -/
inductive AlgOption where
  | LEVENBERG_MARQUARDT
  | INFEASIBLE_QP_HANDLING
  | INTEGRATOR_TYPE
  | DISCRETIZATION_TYPE
  | HESSIAN_APPROXIMATION
  | KKT_TOLERANCE
deriving DecidableEq, Repr

/-- The option values set on the real-time algorithm. -/
inductive AlgValue where
  | num : ℚ → AlgValue
  | IQH_STOP
  | INT_RK45
  | MULTIPLE_SHOOTING
  | GAUSS_NEWTON
deriving DecidableEq, Repr

/-- The real-time iteration algorithm as configured: `RealTimeAlgorithm
alg(ocp, dt)` (line 143) plus the six `alg.set(...)` calls, in program
order. -/
structure RealTimeAlgorithm where
  problem : OCPData
  samplingPeriod : ℚ
  settings : List (AlgOption × AlgValue)

/-- `alg` as built in `main` for a given input file. -/
def alg (lines : List (List ℚ)) : RealTimeAlgorithm :=
  ⟨ocp, dt lines,
   [(.LEVENBERG_MARQUARDT, .num (1/10000)),
    (.INFEASIBLE_QP_HANDLING, .IQH_STOP),
    (.INTEGRATOR_TYPE, .INT_RK45),
    (.DISCRETIZATION_TYPE, .MULTIPLE_SHOOTING),
    (.HESSIAN_APPROXIMATION, .GAUSS_NEWTON),
    (.KKT_TOLERANCE, .num (1/100000000))]⟩

/-- The two fail-fast exits of the setup phase. -/
inductive LoadError where
  | cannotOpen
  | emptyRef
deriving DecidableEq, Repr

/-- The message printed to `cerr` before each `exit(EXIT_FAILURE)`
(lines 25 and 41). -/
def LoadError.message : LoadError → String
  | .cannotOpen => "cannot open reference state file!"
  | .emptyRef => "failed to store the reference in ref_states!"

/-- Everything the configuration phase computes from the reference file
before handing control to the external toolkit. -/
structure Config where
  refStates : List (List ℚ)
  numWaypoints : ℤ
  dtVal : ℚ
  referenceGrid : List (List ℚ)
  constraints : List BoxConstraint
  xInit : List ℚ
deriving DecidableEq, Repr

/-- The configuration built from a successfully loaded file. -/
def mkConfig (lines : List (List ℚ)) : Config :=
  ⟨ref_states lines, num_waypoints lines, dt lines, reference_grid lines,
   ocpConstraints, x0 lines⟩

/-- The setup phase of `main`: the input is `none` when the reference file
cannot be opened, or `some lines` with the file split into lines.  The two
`exit(EXIT_FAILURE)` branches (lines 24-27 and 40-43) run before any
optimal-control object is constructed. -/
def mainSetup (file : Option (List (List ℚ))) : Except LoadError Config :=
  match file with
  | none => .error .cannotOpen
  | some lines =>
      if ref_states lines = [] then .error .emptyRef
      else .ok (mkConfig lines)

/-- Big-step relation of the setup phase, one constructor per control path of
`main` up to the construction of the configuration.  The code is straight-line
and single-threaded, so runs relate an input file to at most one outcome. -/
inductive SetupStep : Option (List (List ℚ)) → Except LoadError Config → Prop where
  | openFail : SetupStep none (.error .cannotOpen)
  | emptyFail (lines : List (List ℚ)) :
      ref_states lines = [] → SetupStep (some lines) (.error .emptyRef)
  | success (lines : List (List ℚ)) :
      ref_states lines ≠ [] → SetupStep (some lines) (.ok (mkConfig lines))

/-- The planar state seen by the validity checker (an OMPL SE2 state). -/
structure SE2State where
  px : ℚ
  py : ℚ
  pyaw : ℚ
deriving DecidableEq, Repr

/-- Modelled from the spec: the bodies of `ValidityChecker::isValid` and
`ValidityChecker::clearance` are not under `src/` — only the header
`include/ValidityChecker.h` declaring the class (derived from the motion
planning library type `StateValidityChecker`) is.  The spec describes the
checker as a one-line geometric predicate with a `clearance(state)` helper,
so a checker is modelled by its clearance function. -/
structure ValidityChecker where
  clearance : SE2State → ℚ

/-- Modelled from the spec: `isValid(state)` is the single geometric test
that the clearance at the state is positive. -/
def ValidityChecker.isValid (vc : ValidityChecker) (st : SE2State) : Bool :=
  decide (0 < vc.clearance st)

/-- Behaviour of the read loop relative to an arbitrary accumulator. -/
theorem readLoop_eq (lines : List (List ℚ)) :
    ∀ rs n, readLoop lines (rs, n) = (rs ++ lines.map parseLine, n + lines.length) := by
  induction lines with
  | nil => intro rs n; simp [readLoop]
  | cons line rest ih =>
      intro rs n
      simp [readLoop, ih, List.append_assoc]
      omega

theorem ref_states_eq_map (lines : List (List ℚ)) :
    ref_states lines = lines.map parseLine := by
  simp [ref_states, readLoop_eq]

theorem num_waypoints_eq_length (lines : List (List ℚ)) :
    num_waypoints lines = lines.length := by
  simp [num_waypoints, readLoop_eq]

theorem parseLine_length (toks : List ℚ) : (parseLine toks).length = 3 := rfl

theorem ref_states_length (lines : List (List ℚ)) :
    (ref_states lines).length = lines.length := by
  rw [ref_states_eq_map, List.length_map]

theorem ref_states_mem_length (lines : List (List ℚ)) :
    ∀ w ∈ ref_states lines, w.length = 3 := by
  rw [ref_states_eq_map]
  intro w hw
  obtain ⟨l, _, rfl⟩ := List.mem_map.mp hw
  exact parseLine_length l

/-- Reconstructing a length-3 list from its three `getD` reads. -/
theorem getD_triple (l : List ℚ) (hl : l.length = 3) :
    [l.getD 0 0, l.getD 1 0, l.getD 2 0] = l := by
  rcases l with _ | ⟨a, _ | ⟨b, _ | ⟨c, _ | ⟨d, t⟩⟩⟩⟩ <;> simp_all [List.getD]

/-- C1: The vehicle dynamics model supplied by the program is the simple
car-like (bicycle) kinematic model: for state (x, y, theta) and controls u0
(velocity) and u1 (steering angle), the differential equation registered with
the toolkit is dot(x) = u0*cos(theta), dot(y) = u0*sin(theta), and
dot(theta) = u0*tan(u1)/wheelbase, with wheelbase = 10.0. -/
theorem dynamics_is_simple_car_model :
    f = specDynamics ∧ wheelbase = 10 ∧
    f.map Prod.fst = [Var.x, Var.y, Var.theta] ∧
    ∀ (co si ta : ℚ → ℚ) (env : Var → ℚ),
      f.map (fun e => Expr.evalWith co si ta env e.2) =
        [env .u0 * co (env .theta), env .u0 * si (env .theta),
         env .u0 * ta (env .u1) / wheelbase] := by
  refine ⟨rfl, rfl, rfl, ?_⟩
  intro co si ta env
  simp [f, Expr.evalWith, wheelbase]

/-- C2: Reference-path loading reads the whole reference file line by line
and produces one 3-component waypoint per line: for every input file with n
readable lines, after loading, ref_states has exactly n entries, each of
length 3, entry i holding the numbers parsed from line i, and num_waypoints
equals n. -/
theorem reference_loading_per_line (lines : List (List ℚ)) :
    (ref_states lines).length = lines.length ∧
    num_waypoints lines = lines.length ∧
    (∀ w ∈ ref_states lines, w.length = 3) ∧
    ∀ i, i < lines.length →
      (ref_states lines).getD i [] = parseLine (lines.getD i []) := by
  refine ⟨ref_states_length lines, num_waypoints_eq_length lines,
    ref_states_mem_length lines, ?_⟩
  intro i hi
  rw [ref_states_eq_map]
  rw [List.getD_eq_getElem?_getD, List.getD_eq_getElem?_getD,
    List.getElem?_map, List.getElem?_eq_getElem hi]
  simp

/-- C3: Reference-path loading fails fast on bad input: if the reference
state file cannot be opened, or if after reading it no waypoints were stored
(ref_states is empty), the program prints an error message and terminates
with EXIT_FAILURE before any optimal-control setup; otherwise it proceeds. -/
theorem loading_fails_fast :
    mainSetup none = .error .cannotOpen ∧
    LoadError.message .cannotOpen = "cannot open reference state file!" ∧
    LoadError.message .emptyRef = "failed to store the reference in ref_states!" ∧
    (∀ lines : List (List ℚ), ref_states lines = [] ↔ lines = []) ∧
    (∀ lines : List (List ℚ), ref_states lines = [] →
      mainSetup (some lines) = .error .emptyRef) ∧
    ∀ lines : List (List ℚ), ref_states lines ≠ [] →
      mainSetup (some lines) = .ok (mkConfig lines) := by
  refine ⟨rfl, rfl, rfl, ?_, ?_, ?_⟩
  · intro lines
    rw [ref_states_eq_map]
    simp
  · intro lines hempty
    simp [mainSetup, hempty]
  · intro lines hne
    simp [mainSetup, hne]

/-- C4: The cost/constraint configuration supplied to the optimal control
problem is: a least-squares objective over the 5-vector (x, y, theta, u0, u1)
with diagonal weight matrix diag(1.0, 1.0, 0.7, 1e-6, 1e-6) and zero
reference vector, subject to the dynamics and the box constraints
0 <= x <= 200, 0 <= y <= 200, -pi <= theta <= pi, -10 <= u0 <= 10, and
-pi/3 <= u1 <= pi/3. -/
theorem cost_and_constraints_configuration :
    ocp.lsqH = [Expr.var .x, .var .y, .var .theta, .var .u0, .var .u1] ∧
    ocp.weightQ = specQ ∧
    (∀ i, ocp.refR i = 0) ∧
    ocp.dynamics = f ∧
    ocp.constraints = specConstraints := by
  refine ⟨rfl, ?_, fun i => rfl, rfl, ?_⟩
  · funext i j
    fin_cases i <;> fin_cases j <;> simp [ocp, Qmat, matUpd, specQ]
  · simp [ocp, ocpConstraints, specConstraints, rq, M_PI, PiLin.neg, PiLin.divQ]
    norm_num

/-- C5: The hard solver work is delegated by configuration, not
reimplemented: the program constructs a real-time iteration algorithm over
the OCP with sampling period dt, and sets on it multiple-shooting
discretization, Gauss-Newton Hessian approximation, an RK45 integrator,
Levenberg-Marquardt regularization 1e-4, KKT tolerance 1e-8, and
stop-on-infeasible-QP handling; no SQP, integration, or QP routine is
defined in this repository's own code (the algorithm is an opaque external
object holding only the OCP data and the option list below). -/
theorem solver_delegated_by_configuration (lines : List (List ℚ)) :
    (alg lines).problem = ocp ∧
    (alg lines).samplingPeriod = dt lines ∧
    (.DISCRETIZATION_TYPE, .MULTIPLE_SHOOTING) ∈ (alg lines).settings ∧
    (.HESSIAN_APPROXIMATION, .GAUSS_NEWTON) ∈ (alg lines).settings ∧
    (.INTEGRATOR_TYPE, .INT_RK45) ∈ (alg lines).settings ∧
    (.LEVENBERG_MARQUARDT, .num (1/10000)) ∈ (alg lines).settings ∧
    (.KKT_TOLERANCE, .num (1/100000000)) ∈ (alg lines).settings ∧
    (.INFEASIBLE_QP_HANDLING, .IQH_STOP) ∈ (alg lines).settings ∧
    (alg lines).settings.length = 6 := by
  refine ⟨rfl, rfl, ?_, ?_, ?_, ?_, ?_, ?_, rfl⟩ <;> simp [alg]

theorem totalSteps_eq (lines : List (List ℚ)) :
    totalSteps lines = (lines.length : ℤ) - 1 := by
  rw [totalSteps, num_waypoints_eq_length]

/-- C6: For an input file containing exactly one line, loading succeeds
(ref_states is non-empty) but totalSteps = num_waypoints - 1 evaluates to 0
and the step size dt = tTotal / totalSteps is computed by a division by
zero; the only guard checks emptiness, so no precondition rules out
num_waypoints = 1, and the division in dt is therefore not protected for
every non-empty input. -/
theorem single_line_unguarded_division (lines : List (List ℚ))
    (hone : lines.length = 1) :
    mainSetup (some lines) = .ok (mkConfig lines) ∧
    ref_states lines ≠ [] ∧
    totalSteps lines = 0 ∧
    ((totalSteps lines : ℚ)) = 0 ∧
    dt lines = tTotal / ((totalSteps lines : ℚ)) := by
  have hlen : (ref_states lines).length = 1 := by rw [ref_states_length, hone]
  have hne : ref_states lines ≠ [] := by
    intro h
    rw [h] at hlen
    exact absurd hlen (by decide)
  have hts : totalSteps lines = 0 := by rw [totalSteps_eq, hone]; norm_num
  refine ⟨by simp [mainSetup, hne], hne, hts, by rw [hts]; norm_num, rfl⟩

theorem single_line_unguarded_division_witness :
    mainSetup (some [[0, 0, 0]]) = .ok (mkConfig [[0, 0, 0]]) ∧
    ref_states [[0, 0, 0]] ≠ [] ∧
    totalSteps [[0, 0, 0]] = 0 ∧
    ((totalSteps [[0, 0, 0]] : ℚ)) = 0 ∧
    dt [[0, 0, 0]] = tTotal / ((totalSteps [[0, 0, 0]] : ℚ)) :=
  single_line_unguarded_division [[0, 0, 0]] rfl

/-- The grid-filling loop reproduces the first `k` stored waypoints when all
stored waypoints have length 3. -/
theorem rangeMap_getD_take (L : List (List ℚ)) (h3 : ∀ l ∈ L, l.length = 3) :
    ∀ k, k ≤ L.length →
      (List.range k).map (fun i => (List.range 3).map (fun s => (L.getD i []).getD s 0)) =
        L.take k := by
  intro k
  induction k with
  | zero => simp
  | succ k ih =>
      intro hk
      have hklen : k < L.length := hk
      have hrange3 : List.range 3 = [0, 1, 2] := rfl
      rw [hrange3] at ih ⊢
      rw [List.range_succ, List.map_append, ih (le_of_lt hklen), List.take_succ,
        List.getElem?_eq_getElem hklen]
      have hG : L.getD k [] = L.get ⟨k, hklen⟩ := by
        rw [List.getD_eq_getElem?_getD, List.getElem?_eq_getElem hklen]
        rfl
      have h3k : (L.get ⟨k, hklen⟩).length = 3 := h3 _ (L.get_mem _ _)
      simp only [List.map_cons, List.map_nil, hG]
      rw [getD_triple _ h3k]
      rfl

/-- C7: For every loaded reference path with num_waypoints >= 2, the
reference grid handed to the controller is filled only from ref_states[0]
through ref_states[num_waypoints - 2]: the loop copying waypoints into
reference_grid runs for i in [0, totalSteps) with
totalSteps = num_waypoints - 1, so the final waypoint
ref_states[num_waypoints - 1] is never written into the tracking
reference. -/
theorem reference_grid_omits_final_waypoint (lines : List (List ℚ))
    (h2 : 2 ≤ lines.length) :
    reference_grid lines = (ref_states lines).take (lines.length - 1) ∧
    reference_grid lines = (ref_states lines).dropLast ∧
    (reference_grid lines).length = lines.length - 1 := by
  have hk : (totalSteps lines).toNat = lines.length - 1 := by
    rw [totalSteps_eq]
    omega
  have htake : reference_grid lines = (ref_states lines).take (lines.length - 1) := by
    rw [reference_grid, hk]
    apply rangeMap_getD_take _ (ref_states_mem_length lines)
    rw [ref_states_length]
    omega
  have hdrop : (ref_states lines).dropLast = (ref_states lines).take (lines.length - 1) := by
    rw [List.dropLast_eq_take, ref_states_length]
  refine ⟨htake, by rw [htake, hdrop], ?_⟩
  rw [htake, List.length_take, ref_states_length]
  omega

theorem reference_grid_omits_final_waypoint_witness :
    reference_grid [[1, 2, 3], [4, 5, 6]] =
      (ref_states [[1, 2, 3], [4, 5, 6]]).take ([[(1 : ℚ), 2, 3], [4, 5, 6]].length - 1) ∧
    reference_grid [[1, 2, 3], [4, 5, 6]] = (ref_states [[1, 2, 3], [4, 5, 6]]).dropLast ∧
    (reference_grid [[1, 2, 3], [4, 5, 6]]).length = [[(1 : ℚ), 2, 3], [4, 5, 6]].length - 1 :=
  reference_grid_omits_final_waypoint [[1, 2, 3], [4, 5, 6]] (by norm_num)

/-- C8: The state-validity predicate supplied for the sampling-based planner
is a one-line geometric predicate: the repository provides a ValidityChecker
type, derived from the motion-planning library's StateValidityChecker, whose
isValid(state) is implemented as a single geometric test (with a
clearance(state) helper). -/
theorem isValid_is_single_clearance_test (vc : ValidityChecker) (st : SE2State) :
    vc.isValid st = true ↔ 0 < vc.clearance st := by
  simp [ValidityChecker.isValid]

/-- Reads through `take 3` agree with direct reads below index 3. -/
theorem getD_take3 (toks : List ℚ) (i : ℕ) (hi : i < 3) :
    (toks.take 3).getD i 0 = toks.getD i 0 := by
  rw [List.getD_eq_getElem?_getD, List.getD_eq_getElem?_getD, List.getElem?_take]
  simp [hi]

/-- C9: Line parsing is total and lossy at the edges: for every line of the
reference file, exactly three extraction attempts are made into a vector
pre-filled with zeros, so a line with fewer than three numeric tokens yields
a waypoint whose missing components are 0.0, and any tokens after the third
on a line are ignored. -/
theorem line_parsing_total_and_lossy (toks : List ℚ) :
    (parseLine toks).length = 3 ∧
    parseLine toks = parseLine (toks.take 3) ∧
    (∀ j, j < 3 → toks.length ≤ j → (parseLine toks).getD j 1 = 0) ∧
    ∀ j, j < 3 → (parseLine toks).getD j 1 = toks.getD j 0 := by
  refine ⟨rfl, ?_, ?_, ?_⟩
  · rw [parseLine, parseLine, getD_take3 _ 0 (by norm_num),
      getD_take3 _ 1 (by norm_num), getD_take3 _ 2 (by norm_num)]
  · intro j hj3 hjlen
    have hz : toks.getD j 0 = 0 := List.getD_eq_default _ _ hjlen
    interval_cases j <;> simpa [parseLine] using hz
  · intro j hj3
    interval_cases j <;> rfl

/-- C10: The configuration phase is deterministic and single-threaded: for
any two runs of the program on identical reference-file contents, the loaded
ref_states, num_waypoints, dt, reference_grid, OCP constraints, and initial
state x0 (taken from ref_states[0]) are identical — no concurrency,
randomness, or other input influences them. -/
theorem setup_deterministic (file : Option (List (List ℚ)))
    (r1 r2 : Except LoadError Config)
    (h1 : SetupStep file r1) (h2 : SetupStep file r2) : r1 = r2 := by
  cases h1 <;> cases h2 <;> simp_all

theorem setup_deterministic_witness :
    (Except.ok (mkConfig [[1, 2, 3], [4, 5, 6]]) : Except LoadError Config) =
      .ok (mkConfig [[1, 2, 3], [4, 5, 6]]) :=
  setup_deterministic (some [[1, 2, 3], [4, 5, 6]]) _ _
    (SetupStep.success [[1, 2, 3], [4, 5, 6]] (by simp [ref_states_eq_map]))
    (SetupStep.success [[1, 2, 3], [4, 5, 6]] (by simp [ref_states_eq_map]))

end SimpleCar
